import Mathlib

/-!
Verification development for the cross-context routing core of the
czviewer browser extension.

The definitions below are a shallow embedding of the TypeScript source:

* `src/background/latencyRouter.ts` — reward participant registry,
  round-robin scheduler, cooldown persistence, latency-data relay;
* `src/content/multiviewBridge.ts` — page/extension bridge: origin
  checks, subscription set, telemetry forwarding and sanitisation.

JavaScript dynamic values are modelled by `JsVal` (with a `JsNum` that
distinguishes finite numbers from `NaN`/`Infinity`); module-level mutable
state becomes explicit state records threaded through the functions;
asynchronous callbacks become explicit event parameters describing which
callback fired and in which order.  Timestamps are `Int` milliseconds.
-/

/-! ## JavaScript value model -/

/-- A JavaScript number: either a finite value or one of the non-finite
specials.  Finite values are modelled as integers (the code only ever
compares, adds and stores them). -/
inductive JsNum
  | finite (n : Int)
  | nan
  | posInf
  | negInf
deriving DecidableEq, Repr

/-- A JavaScript value as it appears in loosely-typed message fields. -/
inductive JsVal
  | vUndefined
  | vNull
  | vBool (b : Bool)
  | vNum (n : JsNum)
  | vStr (s : String)
deriving DecidableEq, Repr

/-- The `Number(x)` coercion, restricted to the value shapes that can
reach the bridge: `undefined ↦ NaN`, `null ↦ 0`, booleans to 0/1,
numbers unchanged, strings via integer parsing (empty/whitespace ↦ 0,
non-numeric ↦ NaN). -/
def jsToNumber : JsVal → JsNum
  | .vUndefined => .nan
  | .vNull => .finite 0
  | .vBool b => .finite (if b then 1 else 0)
  | .vNum n => n
  | .vStr s =>
      let t := s.trim
      if t = "" then .finite 0
      else
        match t.toInt? with
        | some n => .finite n
        | none => .nan

/-- JavaScript truthiness of a value. -/
def jsTruthy : JsVal → Bool
  | .vUndefined => false
  | .vNull => false
  | .vBool b => b
  | .vNum (.finite n) => n != 0
  | .vNum .nan => false
  | .vNum .posInf => true
  | .vNum .negInf => true
  | .vStr s => s != ""

/-- `Number.isFinite`. -/
def JsNum.isFinite : JsNum → Bool
  | .finite _ => true
  | _ => false

/-- The `Number.isFinite(x) ? x : 0` pattern used when sanitising
telemetry fields. -/
def finiteOr0 : JsNum → Int
  | .finite n => n
  | _ => 0

/-- The bridge pattern coercing a value to a string, with the empty
string as fallback for non-string values. -/
def strOrEmpty : JsVal → String
  | .vStr s => s
  | _ => ""

/-- `hay.includes(needle)` on strings. -/
def strIncludes (hay needle : String) : Bool :=
  hay.toList.tails.any (fun t => needle.toList.isPrefixOf t)

/-! ## Reward scheduler state (latencyRouter.ts)

Module-level constants and mutable variables of `latencyRouter.ts`:
`rewardParticipants` (a JS `Map`, insertion-ordered), the round-robin
cursor, the cooldown timestamp, the in-flight and cooldown-ready flags,
and whether the scheduler interval timer is installed
(`rewardSchedulerIntervalId != null`).  Writes issued to the IndexedDB
store (`writeRewardCooldownUntil`) are recorded in `persistLog`, most
recent first. -/

def REWARD_HEARTBEAT_STALE_MS : Int := 45000

def REWARD_SCHEDULE_INTERVAL_MS : Int := 15000

def REWARD_COOLDOWN_MS : Int := 55 * 60 * 1000

def REWARD_RUN_RESPONSE_TIMEOUT_MS : Int := 12000

/-- One registered (tab, frame) endpoint. -/
structure RewardParticipant where
  tabId : Nat
  frameId : Nat
  channelId : String
  updatedAt : Int
deriving DecidableEq, Repr

/-- `getRewardParticipantKey` builds the string key `tabId:frameId`;
since that encoding is injective on number pairs we model the key as
the pair itself. -/
def getRewardParticipantKey (tabId frameId : Nat) : Nat × Nat :=
  (tabId, frameId)

/-- The module-level mutable scheduler state. -/
structure RewardState where
  participants : List ((Nat × Nat) × RewardParticipant)
  rewardRoundRobinCursor : Nat
  rewardCooldownUntil : Int
  rewardTickInFlight : Bool
  rewardCooldownReady : Bool
  schedulerRunning : Bool
  persistLog : List Int
deriving DecidableEq, Repr

/-- The state at module load: empty registry, cursor 0, no cooldown,
no tick in flight, cooldown not yet read, no interval timer. -/
def initialRewardState : RewardState :=
  ⟨[], 0, 0, false, false, false, []⟩

/-- JS `Map.set` on an insertion-ordered association list: replace in
place if the key is present, append otherwise. -/
def mapSet (m : List ((Nat × Nat) × RewardParticipant)) (k : Nat × Nat)
    (v : RewardParticipant) : List ((Nat × Nat) × RewardParticipant) :=
  if m.any (fun kv => kv.1 = k) then
    m.map (fun kv => if kv.1 = k then (k, v) else kv)
  else
    m ++ [(k, v)]

/-- `ensureRewardSchedulerRunning`: install the interval timer if not
already installed. -/
def ensureRewardSchedulerRunning (st : RewardState) : RewardState :=
  if st.schedulerRunning then st else { st with schedulerRunning := true }

/-- `stopRewardSchedulerIfIdle`: clear the interval timer when the
registry has become empty. -/
def stopRewardSchedulerIfIdle (st : RewardState) : RewardState :=
  if st.participants.length > 0 then st
  else if st.schedulerRunning then { st with schedulerRunning := false }
  else st

/-- `upsertRewardParticipant`: insert or refresh the participant keyed by
(tabId, frameId), stamping `updatedAt` with the current time, then make
sure the scheduler timer runs. -/
def upsertRewardParticipant (tabId frameId : Nat) (channelId : String)
    (now : Int) (st : RewardState) : RewardState :=
  let key := getRewardParticipantKey tabId frameId
  ensureRewardSchedulerRunning
    { st with participants := mapSet st.participants key ⟨tabId, frameId, channelId, now⟩ }

/-- `removeRewardParticipant`: delete by key, then stop the timer if the
registry became empty. -/
def removeRewardParticipant (tabId frameId : Nat) (st : RewardState) : RewardState :=
  let remaining :=
    st.participants.filter (fun kv => kv.1 ≠ getRewardParticipantKey tabId frameId)
  stopRewardSchedulerIfIdle { st with participants := remaining }

/-- `pruneRewardParticipants`: drop every participant whose heartbeat age
`now - updatedAt` exceeds the staleness window, then stop the timer if
the registry became empty. -/
def pruneRewardParticipants (now : Int) (st : RewardState) : RewardState :=
  let remaining :=
    st.participants.filter
      (fun kv => not (decide (now - kv.2.updatedAt > REWARD_HEARTBEAT_STALE_MS)))
  stopRewardSchedulerIfIdle { st with participants := remaining }

/-- `getRewardNextTarget`: prune, then pick the participant at the
round-robin cursor (cursor reset to 0 when out of range) and advance the
cursor modulo the list length; `none` when the pruned list is empty. -/
def getRewardNextTarget (now : Int) (st : RewardState) :
    Option RewardParticipant × RewardState :=
  let st1 := pruneRewardParticipants now st
  let list := st1.participants.map Prod.snd
  if list.length = 0 then (none, st1)
  else
    let c := if st1.rewardRoundRobinCursor ≥ list.length then 0
             else st1.rewardRoundRobinCursor
    (list.get? c, { st1 with rewardRoundRobinCursor := (c + 1) % list.length })

/-! ## Scheduler tick -/

/-- The `{ok?, claimed?}` response shape returned by the content-script
executor. -/
structure RewardRunResponse where
  ok : Option Bool
  claimed : Option Bool
deriving DecidableEq, Repr

/-- What the `chrome.tabs.sendMessage` callback observed:
`chrome.runtime.lastError` set (with its message), or a delivered
response (possibly `undefined`), together with the `Date.now()` value at
the moment the callback runs. -/
inductive CallbackEvent
  | lastError (errMsg : String)
  | success (rawResponse : Option RewardRunResponse) (respNow : Int)
deriving DecidableEq, Repr

/-- How one dispatched tick resolves:
* `sendThrows` — `chrome.tabs.sendMessage` threw synchronously and
  `safeSend` swallowed the throw; since `sendStarted = true` is assigned
  before the call, `sendStarted` is true by then, the callback never
  fires, and the still-armed timeout settles the tick;
* `noResponse` — the callback never fires; the timeout settles the tick;
* `responds ev` — the callback fires before the timeout;
* `lateResponds ev` — the timeout fires first, then the callback fires
  with a late event. -/
inductive DispatchOutcome
  | sendThrows
  | noResponse
  | responds (ev : CallbackEvent)
  | lateResponds (ev : CallbackEvent)
deriving DecidableEq, Repr

/-- Which code path performed the (first effective) settlement of a
tick: none at all (tick skipped or no target), the synchronous
`if (!sendStarted)` fallback inside the tick body, the timeout handler,
or the response callback. -/
inductive SettlePath
  | noSettle
  | syncInTick
  | timeoutPath
  | responseCallback
deriving DecidableEq, Repr

/-- One call to the one-shot `settleTick` closure: `performed` is its
boolean result (true exactly when this call did the settling). -/
structure SettleStep where
  performed : Bool
  settled : Bool
  state : RewardState
deriving DecidableEq, Repr

/-- The `settleTick` closure of `runRewardSchedulerTick`. -/
def settleTick (settled : Bool) (st : RewardState) : SettleStep :=
  if settled then ⟨false, settled, st⟩
  else ⟨true, true, { st with rewardTickInFlight := false }⟩

/-- Body of the `chrome.tabs.sendMessage` response callback after its
`settleTick()` call: evict the target on an explicit "gone" messaging
error; on a `{ok:true, claimed:true}` response set the cooldown to
`Date.now() + REWARD_COOLDOWN_MS` and persist it. -/
def processCallbackBody (target : RewardParticipant) (ev : CallbackEvent)
    (st : RewardState) : RewardState :=
  match ev with
  | .lastError errMsg =>
      if strIncludes errMsg "Receiving end does not exist"
          || strIncludes errMsg "No tab with id" then
        removeRewardParticipant target.tabId target.frameId st
      else st
  | .success rawResponse respNow =>
      let response := rawResponse.getD ⟨none, none⟩
      if response.ok.getD false && response.claimed.getD false then
        { st with
            rewardCooldownUntil := respNow + REWARD_COOLDOWN_MS,
            persistLog := (respNow + REWARD_COOLDOWN_MS) :: st.persistLog }
      else st

/-- Result of one scheduler tick: the final state once every callback of
that tick has run, the dispatched target (if the tick got that far),
how many `settleTick` calls actually performed the settling, and which
path performed it. -/
structure TickResult where
  state : RewardState
  dispatched : Option RewardParticipant
  settles : Nat
  settledBy : SettlePath
deriving DecidableEq, Repr

/-- `runRewardSchedulerTick`, resolved according to `outcome`.  Two
faithful details: the source assigns `sendStarted = true` *before*
calling `chrome.tabs.sendMessage`, so when the call throws synchronously
(`sendThrows`) the `if (!sendStarted)` fallback does not fire — that
fallback is dead code (modelled below on a literal `sendStarted = true`)
and the still-armed timeout performs the settlement; and in the
late-response case the source calls `settleTick()` in the callback but
discards its boolean result and processes the event regardless. -/
def runRewardSchedulerTick (now : Int) (outcome : DispatchOutcome)
    (st : RewardState) : TickResult :=
  if st.rewardTickInFlight then ⟨st, none, 0, .noSettle⟩
  else if !st.rewardCooldownReady then ⟨st, none, 0, .noSettle⟩
  else if st.rewardCooldownUntil > now then ⟨st, none, 0, .noSettle⟩
  else
    let sel := getRewardNextTarget now st
    match sel.1 with
    | none => ⟨sel.2, none, 0, .noSettle⟩
    | some target =>
      let st2 := { sel.2 with rewardTickInFlight := true }
      -- safeSend runs `sendStarted = true; chrome.tabs.sendMessage(...)`:
      -- the assignment precedes the call, so sendStarted is true on every
      -- outcome, a synchronous throw included.
      let sendStarted := true
      if sendStarted = false then
        -- `if (!sendStarted) { clearTimeout(...); settleTick(); }` —
        -- unreachable in the source, kept for fidelity.
        let s := settleTick false st2
        ⟨s.state, some target, if s.performed then 1 else 0, .syncInTick⟩
      else
        match outcome with
        | .sendThrows =>
            -- the callback never fires; the timeout settles at expiry
            let s := settleTick false st2
            ⟨s.state, some target, if s.performed then 1 else 0, .timeoutPath⟩
        | .noResponse =>
            let s := settleTick false st2
            ⟨s.state, some target, if s.performed then 1 else 0, .timeoutPath⟩
        | .responds ev =>
            let s := settleTick false st2
            ⟨processCallbackBody target ev s.state, some target,
              if s.performed then 1 else 0, .responseCallback⟩
        | .lateResponds ev =>
            let s1 := settleTick false st2
            let s2 := settleTick s1.settled s1.state
            ⟨processCallbackBody target ev s2.state, some target,
              (if s1.performed then 1 else 0) + (if s2.performed then 1 else 0),
              .timeoutPath⟩

/-- `initRewardCooldown` up to its trailing `runRewardSchedulerTick()`
call (which is modelled by composing `runRewardSchedulerTick`): restore
the stored value clamped so a past value becomes "no cooldown", mark the
cooldown as ready, and write back when the clamp changed the value. -/
def initRewardCooldown (stored now : Int) (st : RewardState) : RewardState :=
  let u := if stored > now then stored else 0
  let st1 := { st with rewardCooldownUntil := u, rewardCooldownReady := true }
  if stored ≠ u then { st1 with persistLog := u :: st1.persistLog } else st1

/-- `k` consecutive scheduler selections (`getRewardNextTarget`) at one
simulated time. -/
def selectN : Nat → Int → RewardState → List (Option RewardParticipant) × RewardState
  | 0, _, st => ([], st)
  | k + 1, now, st =>
      let sel := getRewardNextTarget now st
      let rest := selectN k now sel.2
      (sel.1 :: rest.1, rest.2)

/-- Whether a dispatch outcome delivers a response reporting both `ok`
and `claimed` (the only event after which the cooldown may move). -/
def claimedSuccess : DispatchOutcome → Bool
  | .responds (.success rawResponse _) =>
      let r := rawResponse.getD ⟨none, none⟩
      r.ok.getD false && r.claimed.getD false
  | .lateResponds (.success rawResponse _) =>
      let r := rawResponse.getD ⟨none, none⟩
      r.ok.getD false && r.claimed.getD false
  | _ => false

/-! ## Web↔Extension bridge (multiviewBridge.ts)

The bridge-local mutable state is the `subscribedLatency` set (a JS
`Set<string>`: insertion-ordered, duplicate-free).  Calls to
`chrome.runtime.sendMessage` issued by the page→extension handlers are
recorded in `sentToBackground`, most recent first.  The module constant
`pageOrigin` and the generated request id are passed as parameters. -/

/-- A message sent from the bridge to the background. -/
inductive BgSend
  | fetchChannelName (channelId : String)
  | ffRequest (channelId : String) (marginSec : Option Int)
deriving DecidableEq, Repr

/-- The bridge-local mutable state. -/
structure BridgeState where
  subscribedLatency : List String
  sentToBackground : List BgSend
deriving DecidableEq, Repr

/-- The bridge state at page load: empty subscription set, nothing sent. -/
def initialBridgeState : BridgeState := ⟨[], []⟩

/-- JS `Set.add`: append if absent. -/
def setAdd (s : List String) (x : String) : List String :=
  if x ∈ s then s else s ++ [x]

/-- JS `Set.delete`: remove the element. -/
def setDelete (s : List String) (x : String) : List String :=
  s.filter (fun y => y ≠ x)

/-- The `data` object of a page `MessageEvent` once known to be a
non-null object; fields are loosely typed. -/
structure WebMsgData where
  msgType : JsVal
  channelId : JsVal
  requestId : JsVal
  marginSec : JsVal
deriving DecidableEq, Repr

/-- A page `MessageEvent` as the bridge observes it: whether
`event.source === window`, the event origin, and the data (`none`
models a null / non-object `data`). -/
structure WebMessageEvent where
  sourceIsSelf : Bool
  origin : String
  data : Option WebMsgData
deriving DecidableEq, Repr

/-- `handleFetchChannelName`: validate the channel id, then send a
`FETCH_CHANNEL_NAME` request to the background (the caller-supplied
request id, or a generated one, is only used when the asynchronous
response is posted back and does not affect the send). -/
def handleFetchChannelName (data : WebMsgData) (st : BridgeState) : BridgeState :=
  let channelId := strOrEmpty data.channelId
  if channelId = "" then st
  else { st with sentToBackground := BgSend.fetchChannelName channelId :: st.sentToBackground }

/-- `handleForceFF`: validate the channel id, coerce the margin
(`Number.isFinite` check, `undefined` otherwise), send a
`CMV_FF_REQUEST` to the background. -/
def handleForceFF (data : WebMsgData) (st : BridgeState) : BridgeState :=
  let channelId := strOrEmpty data.channelId
  if channelId = "" then st
  else
    let marginSecRaw := jsToNumber data.marginSec
    let marginSec : Option Int :=
      if marginSecRaw.isFinite then some (finiteOr0 marginSecRaw) else none
    { st with sentToBackground := BgSend.ffRequest channelId marginSec :: st.sentToBackground }

/-- `handleWebMessage`: reject any event whose source is not the own
window of the page or whose origin differs from the page origin, then
dispatch on `data.type`.  The default switch arm only logs. -/
def handleWebMessage (pageOrigin : String) (raw : WebMessageEvent)
    (st : BridgeState) : BridgeState :=
  if raw.sourceIsSelf ≠ true then st
  else if raw.origin ≠ pageOrigin then st
  else
    match raw.data with
    | none => st
    | some data =>
      if data.msgType = .vStr "CMV_SUBSCRIBE_LATENCY" then
        let id := strOrEmpty data.channelId
        if id ≠ "" then { st with subscribedLatency := setAdd st.subscribedLatency id }
        else st
      else if data.msgType = .vStr "CMV_UNSUBSCRIBE_LATENCY" then
        let id := strOrEmpty data.channelId
        if id ≠ "" then { st with subscribedLatency := setDelete st.subscribedLatency id }
        else st
      else if data.msgType = .vStr "CMV_FETCH_CHANNEL_NAME_REQUEST" then
        handleFetchChannelName data st
      else if data.msgType = .vStr "CMV_FF_REQUEST" then
        handleForceFF data st
      else st

/-- A runtime message as it reaches `handleRuntimeMessage` once known to
be a non-null object (`none` at the call site models `!msg` or a
non-object). -/
structure RuntimeMsg where
  msgType : JsVal
  channelId : JsVal
  latencyMs : JsVal
  bufferedEnd : JsVal
  currentTime : JsVal
deriving DecidableEq, Repr

/-- The `CMV_LATENCY_UPDATE` payload posted to the page. -/
structure CmvLatencyUpdate where
  channelId : String
  latencyMs : Int
  bufferedEnd : Int
  currentTime : Int
deriving DecidableEq, Repr

/-- `handleRuntimeMessage`: the runtime listener of the bridge.  Its only
page-visible effect is an optional `postMessage` of a sanitised
`CMV_LATENCY_UPDATE`, returned here as an `Option`. -/
def handleRuntimeMessage (st : BridgeState) (msg : Option RuntimeMsg) :
    Option CmvLatencyUpdate :=
  match msg with
  | none => none
  | some m =>
    if jsTruthy m.msgType = false then none
    else if m.msgType ≠ .vStr "CHZZK_LATENCY_DATA" then none
    else
      let channelId := strOrEmpty m.channelId
      if channelId = "" then none
      else if channelId ∉ st.subscribedLatency then none
      else
        some ⟨channelId,
          finiteOr0 (jsToNumber m.latencyMs),
          finiteOr0 (jsToNumber m.bufferedEnd),
          finiteOr0 (jsToNumber m.currentTime)⟩

/-! ## Latency-data relay (latencyRouter.ts, CHZZK_LATENCY_DATA branch) -/

/-- A `CHZZK_LATENCY_DATA` message as the relay branch of the router sees it;
`fromRouter` models the truthiness of the `__fromRouter` field. -/
structure LatencyDataMsg where
  fromRouter : Bool
  channelId : JsVal
  latencyMs : JsVal
  bufferedEnd : JsVal
  currentTime : JsVal
deriving DecidableEq, Repr

/-- One relay copy emitted by the router: runtime-wide
(`chrome.runtime.sendMessage`) or same-tab (`chrome.tabs.sendMessage`). -/
inductive RelayOut
  | runtime (m : LatencyDataMsg)
  | tab (tabId : Nat) (m : LatencyDataMsg)
deriving DecidableEq, Repr

/-- The message carried by a relay copy. -/
def RelayOut.msg : RelayOut → LatencyDataMsg
  | .runtime m => m
  | .tab _ m => m

/-- The `CHZZK_LATENCY_DATA` branch of the router: drop messages from chat
frames, drop already-relayed messages, otherwise emit a runtime-wide
copy and (when the sender has a tab) a same-tab copy, both spread with
`__fromRouter: true`. -/
def relayLatencyData (senderIsChatFrame : Bool) (senderTabId : Option Nat)
    (m : LatencyDataMsg) : List RelayOut :=
  if senderIsChatFrame then []
  else if m.fromRouter then []
  else
    let tagged := { m with fromRouter := true }
    match senderTabId with
    | some t => [RelayOut.runtime tagged, RelayOut.tab t tagged]
    | none => [RelayOut.runtime tagged]

/-! ## Helper lemmas -/

@[simp] theorem stopIdle_participants (st : RewardState) :
    (stopRewardSchedulerIfIdle st).participants = st.participants := by
  unfold stopRewardSchedulerIfIdle
  split
  · rfl
  · split <;> rfl

@[simp] theorem stopIdle_cursor (st : RewardState) :
    (stopRewardSchedulerIfIdle st).rewardRoundRobinCursor = st.rewardRoundRobinCursor := by
  unfold stopRewardSchedulerIfIdle
  split
  · rfl
  · split <;> rfl

@[simp] theorem stopIdle_cooldown (st : RewardState) :
    (stopRewardSchedulerIfIdle st).rewardCooldownUntil = st.rewardCooldownUntil := by
  unfold stopRewardSchedulerIfIdle
  split
  · rfl
  · split <;> rfl

@[simp] theorem stopIdle_inFlight (st : RewardState) :
    (stopRewardSchedulerIfIdle st).rewardTickInFlight = st.rewardTickInFlight := by
  unfold stopRewardSchedulerIfIdle
  split
  · rfl
  · split <;> rfl

@[simp] theorem stopIdle_ready (st : RewardState) :
    (stopRewardSchedulerIfIdle st).rewardCooldownReady = st.rewardCooldownReady := by
  unfold stopRewardSchedulerIfIdle
  split
  · rfl
  · split <;> rfl

@[simp] theorem stopIdle_persistLog (st : RewardState) :
    (stopRewardSchedulerIfIdle st).persistLog = st.persistLog := by
  unfold stopRewardSchedulerIfIdle
  split
  · rfl
  · split <;> rfl

@[simp] theorem prune_participants (now : Int) (st : RewardState) :
    (pruneRewardParticipants now st).participants =
      st.participants.filter
        (fun kv => not (decide (now - kv.2.updatedAt > REWARD_HEARTBEAT_STALE_MS))) := by
  unfold pruneRewardParticipants
  simp

@[simp] theorem prune_cursor (now : Int) (st : RewardState) :
    (pruneRewardParticipants now st).rewardRoundRobinCursor = st.rewardRoundRobinCursor := by
  unfold pruneRewardParticipants
  simp

@[simp] theorem prune_cooldown (now : Int) (st : RewardState) :
    (pruneRewardParticipants now st).rewardCooldownUntil = st.rewardCooldownUntil := by
  unfold pruneRewardParticipants
  simp

@[simp] theorem prune_inFlight (now : Int) (st : RewardState) :
    (pruneRewardParticipants now st).rewardTickInFlight = st.rewardTickInFlight := by
  unfold pruneRewardParticipants
  simp

@[simp] theorem prune_ready (now : Int) (st : RewardState) :
    (pruneRewardParticipants now st).rewardCooldownReady = st.rewardCooldownReady := by
  unfold pruneRewardParticipants
  simp

@[simp] theorem prune_persistLog (now : Int) (st : RewardState) :
    (pruneRewardParticipants now st).persistLog = st.persistLog := by
  unfold pruneRewardParticipants
  simp

@[simp] theorem nextTarget_cooldown (now : Int) (st : RewardState) :
    ((getRewardNextTarget now st).2).rewardCooldownUntil = st.rewardCooldownUntil := by
  simp only [getRewardNextTarget]
  split <;> simp

@[simp] theorem nextTarget_persistLog (now : Int) (st : RewardState) :
    ((getRewardNextTarget now st).2).persistLog = st.persistLog := by
  simp only [getRewardNextTarget]
  split <;> simp

@[simp] theorem remove_cooldown (tabId frameId : Nat) (st : RewardState) :
    (removeRewardParticipant tabId frameId st).rewardCooldownUntil = st.rewardCooldownUntil := by
  unfold removeRewardParticipant
  simp

@[simp] theorem remove_persistLog (tabId frameId : Nat) (st : RewardState) :
    (removeRewardParticipant tabId frameId st).persistLog = st.persistLog := by
  unfold removeRewardParticipant
  simp

@[simp] theorem remove_inFlight (tabId frameId : Nat) (st : RewardState) :
    (removeRewardParticipant tabId frameId st).rewardTickInFlight = st.rewardTickInFlight := by
  unfold removeRewardParticipant
  simp

@[simp] theorem processCallbackBody_inFlight (t : RewardParticipant)
    (ev : CallbackEvent) (st : RewardState) :
    (processCallbackBody t ev st).rewardTickInFlight = st.rewardTickInFlight := by
  cases ev <;> simp only [processCallbackBody] <;> split <;> simp

/-! ## Claim theorems -/

/-- Claim C5: every page message whose source window is not the own
window of the bridge, or whose origin differs from the own origin of
the page, is
discarded before any other processing — the bridge state (subscription
set and messages sent to the background) is left completely unchanged,
and nothing is posted to the page (page posts only ever originate from
the background sends recorded here). -/
theorem bridge_rejects_cross_origin (pageOrigin : String) (raw : WebMessageEvent)
    (st : BridgeState) (h : raw.sourceIsSelf = false ∨ raw.origin ≠ pageOrigin) :
    handleWebMessage pageOrigin raw st = st := by
  unfold handleWebMessage
  rcases h with h | h
  · simp [h]
  · by_cases hs : raw.sourceIsSelf = true
    · simp [hs, h]
    · simp [hs]

/-- Witness for C5 at a concrete cross-origin subscribe attempt. -/
theorem bridge_rejects_cross_origin_witness :
    handleWebMessage "https://multiview.example"
      ⟨true, "https://evil.example",
        some ⟨.vStr "CMV_SUBSCRIBE_LATENCY", .vStr "chan1", .vUndefined, .vUndefined⟩⟩
      initialBridgeState = initialBridgeState :=
  bridge_rejects_cross_origin "https://multiview.example" _ initialBridgeState
    (Or.inr (by decide))

/-- Claim C6: the telemetry branch of the router never re-relays a message
already carrying `__fromRouter`; every copy it does relay (runtime-wide
or same-tab) carries `__fromRouter = true`; hence feeding any relayed
copy back into the router produces zero further relays. -/
theorem router_loop_prevention (chat : Bool) (tid : Option Nat) (m : LatencyDataMsg) :
    (m.fromRouter = true → relayLatencyData chat tid m = [])
    ∧ (∀ r ∈ relayLatencyData chat tid m, r.msg.fromRouter = true)
    ∧ (∀ r ∈ relayLatencyData chat tid m, ∀ chat2 : Bool, ∀ tid2 : Option Nat,
        relayLatencyData chat2 tid2 r.msg = []) := by
  refine ⟨?_, ?_, ?_⟩
  · intro h
    unfold relayLatencyData
    by_cases hc : chat = true
    · simp [hc]
    · simp [hc, h]
  · intro r hr
    unfold relayLatencyData at hr
    by_cases hc : chat = true
    · simp [hc] at hr
    · by_cases hf : m.fromRouter = true
      · simp [hc, hf] at hr
      · cases tid <;> simp [hc, hf] at hr
        · subst hr
          rfl
        · rcases hr with hr | hr <;> subst hr <;> rfl
  · intro r hr chat2 tid2
    unfold relayLatencyData at hr
    by_cases hc : chat = true
    · simp [hc] at hr
    · by_cases hf : m.fromRouter = true
      · simp [hc, hf] at hr
      · cases tid <;> simp [hc, hf] at hr
        · subst hr
          unfold relayLatencyData
          simp [RelayOut.msg]
        · rcases hr with hr | hr <;> subst hr <;>
            (unfold relayLatencyData; simp [RelayOut.msg])

/-- Witness for C6 at a concrete already-tagged message. -/
theorem router_loop_prevention_witness :
    relayLatencyData false (some 7)
      ⟨true, .vStr "chan1", .vNum (.finite 120), .vUndefined, .vUndefined⟩ = [] :=
  (router_loop_prevention false (some 7)
      ⟨true, .vStr "chan1", .vNum (.finite 120), .vUndefined, .vUndefined⟩).1 rfl

/-- Claim C10: before forwarding telemetry to the page the bridge
sanitises the payload — a telemetry message whose channelId is missing
or not a string is dropped entirely, and each numeric field whose
`Number(...)` coercion is not finite is replaced by 0 (a finite coercion
is forwarded unchanged), so the page never receives a non-finite
numeric field. -/
theorem bridge_sanitizes_telemetry (st : BridgeState) (m : RuntimeMsg) :
    ((∀ s : String, m.channelId ≠ .vStr s) → handleRuntimeMessage st (some m) = none)
    ∧ (∀ u, handleRuntimeMessage st (some m) = some u →
        ((jsToNumber m.latencyMs).isFinite = false → u.latencyMs = 0)
        ∧ ((jsToNumber m.latencyMs).isFinite = true →
            JsNum.finite u.latencyMs = jsToNumber m.latencyMs)
        ∧ ((jsToNumber m.bufferedEnd).isFinite = false → u.bufferedEnd = 0)
        ∧ ((jsToNumber m.bufferedEnd).isFinite = true →
            JsNum.finite u.bufferedEnd = jsToNumber m.bufferedEnd)
        ∧ ((jsToNumber m.currentTime).isFinite = false → u.currentTime = 0)
        ∧ ((jsToNumber m.currentTime).isFinite = true →
            JsNum.finite u.currentTime = jsToNumber m.currentTime)) := by
  constructor
  · intro h
    have hch : strOrEmpty m.channelId = "" := by
      cases hcase : m.channelId <;> simp [strOrEmpty]
      exact absurd rfl (hcase ▸ h _)
    unfold handleRuntimeMessage
    by_cases h1 : jsTruthy m.msgType = false
    · simp [h1]
    · by_cases h2 : m.msgType = .vStr "CHZZK_LATENCY_DATA"
      · simp [h1, h2, hch]
      · simp [h1, h2]
  · intro u hu
    unfold handleRuntimeMessage at hu
    by_cases h1 : jsTruthy m.msgType = false
    · simp [h1] at hu
    · by_cases h2 : m.msgType = .vStr "CHZZK_LATENCY_DATA"
      · by_cases h3 : strOrEmpty m.channelId = ""
        · simp [h1, h2, h3] at hu
        · by_cases h4 : strOrEmpty m.channelId ∈ st.subscribedLatency
          · simp [h1, h2, h3, h4] at hu
            refine ⟨?_, ?_, ?_, ?_, ?_, ?_⟩ <;>
              · intro hfin
                cases hlat : jsToNumber m.latencyMs <;>
                cases hbuf : jsToNumber m.bufferedEnd <;>
                cases hcur : jsToNumber m.currentTime <;>
                  simp [hlat, hbuf, hcur, JsNum.isFinite] at hfin ⊢ <;>
                  simp [← hu, finiteOr0, hlat, hbuf, hcur]
          · simp [h1, h2, h3, h4] at hu
      · simp [h1, h2] at hu

/-- Witness for C10: a telemetry message with a numeric channelId is
dropped; one with an `undefined` latency field is posted with
latencyMs 0. -/
theorem bridge_sanitizes_telemetry_witness :
    handleRuntimeMessage ⟨["chan1"], []⟩
      (some ⟨.vStr "CHZZK_LATENCY_DATA", .vNum (.finite 5),
        .vNum (.finite 1), .vNum (.finite 2), .vNum (.finite 3)⟩) = none
    ∧ (CmvLatencyUpdate.mk "chan1" 0 2 3).latencyMs = 0 :=
  ⟨(bridge_sanitizes_telemetry ⟨["chan1"], []⟩
      ⟨.vStr "CHZZK_LATENCY_DATA", .vNum (.finite 5),
        .vNum (.finite 1), .vNum (.finite 2), .vNum (.finite 3)⟩).1
      (fun s h => JsVal.noConfusion h),
   ((bridge_sanitizes_telemetry ⟨["chan1"], []⟩
      ⟨.vStr "CHZZK_LATENCY_DATA", .vStr "chan1",
        .vUndefined, .vNum (.finite 2), .vNum (.finite 3)⟩).2
      ⟨"chan1", 0, 2, 3⟩ (by decide)).1 (by decide)⟩

/-- Claim C7: the bridge posts a latency-update for an inbound telemetry
message exactly when the channel id of the message is in the local
subscription set (the set never contains the empty string in reachable
states, which is the stated hypothesis); and after the page unsubscribes
channel X, telemetry for X is no longer forwarded. -/
theorem bridge_subscription_filtering (pageOrigin : String) (st : BridgeState)
    (m : RuntimeMsg) (id : String)
    (hty : m.msgType = .vStr "CHZZK_LATENCY_DATA")
    (hch : m.channelId = .vStr id)
    (hno : "" ∉ st.subscribedLatency) :
    ((handleRuntimeMessage st (some m)).isSome = true ↔ id ∈ st.subscribedLatency)
    ∧ (∀ unsub : WebMsgData,
        unsub.msgType = .vStr "CMV_UNSUBSCRIBE_LATENCY" →
        unsub.channelId = .vStr id →
        handleRuntimeMessage
          (handleWebMessage pageOrigin ⟨true, pageOrigin, some unsub⟩ st)
          (some m) = none) := by
  have htruthy : jsTruthy m.msgType = false ↔ False := by
    simp [hty, jsTruthy]
  constructor
  · unfold handleRuntimeMessage
    by_cases hid : id = ""
    · subst hid
      simp [hty, jsTruthy, strOrEmpty, hch]
      intro hmem
      exact hno hmem
    · by_cases hmem : id ∈ st.subscribedLatency
      · simp [hty, jsTruthy, strOrEmpty, hch, hid, hmem]
      · simp [hty, jsTruthy, strOrEmpty, hch, hid, hmem]
  · intro unsub hu hcu
    have hst : (handleWebMessage pageOrigin ⟨true, pageOrigin, some unsub⟩ st).subscribedLatency
        = (if id ≠ "" then setDelete st.subscribedLatency id else st.subscribedLatency) := by
      unfold handleWebMessage
      simp [hu, hcu, strOrEmpty]
      split <;> rfl
    unfold handleRuntimeMessage
    by_cases hid : id = ""
    · subst hid
      simp [hty, jsTruthy, strOrEmpty, hch]
    · have hnmem : id ∉ (handleWebMessage pageOrigin ⟨true, pageOrigin, some unsub⟩ st).subscribedLatency := by
        rw [hst]
        simp [hid, setDelete]
      simp [hty, jsTruthy, strOrEmpty, hch, hid, hnmem]

/-- Witness for C7 at a concrete subscribed state. -/
theorem bridge_subscription_filtering_witness :
    (((handleRuntimeMessage ⟨["chan1"], []⟩
        (some ⟨.vStr "CHZZK_LATENCY_DATA", .vStr "chan1",
          .vNum (.finite 9), .vNum (.finite 8), .vNum (.finite 7)⟩)).isSome = true
      ↔ "chan1" ∈ ["chan1"])
    ∧ (∀ unsub : WebMsgData,
        unsub.msgType = .vStr "CMV_UNSUBSCRIBE_LATENCY" →
        unsub.channelId = .vStr "chan1" →
        handleRuntimeMessage
          (handleWebMessage "https://multiview.example"
            ⟨true, "https://multiview.example", some unsub⟩ ⟨["chan1"], []⟩)
          (some ⟨.vStr "CHZZK_LATENCY_DATA", .vStr "chan1",
            .vNum (.finite 9), .vNum (.finite 8), .vNum (.finite 7)⟩) = none)) :=
  bridge_subscription_filtering "https://multiview.example" ⟨["chan1"], []⟩
    ⟨.vStr "CHZZK_LATENCY_DATA", .vStr "chan1",
      .vNum (.finite 9), .vNum (.finite 8), .vNum (.finite 7)⟩ "chan1"
    rfl rfl (by decide)

/-- Claim C8: at process start the cooldown flag is unready and every
tick before `initRewardCooldown` completes is skipped without touching
the state; after initialisation the cooldown is the stored value when
that is in the future and 0 otherwise, and the ready flag is set. -/
theorem cooldown_restore (stored now now2 : Int) (outcome : DispatchOutcome)
    (st : RewardState) (hready : st.rewardCooldownReady = false) :
    initialRewardState.rewardCooldownReady = false
    ∧ runRewardSchedulerTick now2 outcome st = ⟨st, none, 0, .noSettle⟩
    ∧ (initRewardCooldown stored now st).rewardCooldownUntil
        = (if stored > now then stored else 0)
    ∧ (initRewardCooldown stored now st).rewardCooldownReady = true := by
  refine ⟨rfl, ?_, ?_, ?_⟩
  · unfold runRewardSchedulerTick
    by_cases h1 : st.rewardTickInFlight = true
    · simp [h1]
    · simp [h1, hready]
  · unfold initRewardCooldown
    split <;> simp <;> split <;> rfl
  · unfold initRewardCooldown
    split <;> simp <;> split <;> rfl

/-- Witness for C8: a stale stored value (10 < now = 50) is clamped to
0 and a tick in the unready initial state is skipped. -/
theorem cooldown_restore_witness :
    initialRewardState.rewardCooldownReady = false
    ∧ runRewardSchedulerTick 0 .noResponse initialRewardState
        = ⟨initialRewardState, none, 0, .noSettle⟩
    ∧ (initRewardCooldown 10 50 initialRewardState).rewardCooldownUntil
        = (if (10 : Int) > 50 then 10 else 0)
    ∧ (initRewardCooldown 10 50 initialRewardState).rewardCooldownReady = true :=
  cooldown_restore 10 50 0 .noResponse initialRewardState (by decide)

/-- Claim C9: pruning removes exactly the participants whose heartbeat
age exceeds the staleness window (those at or under the window are
retained), and a selection never returns a stale participant. -/
theorem stale_eviction (now : Int) (st : RewardState) :
    (∀ kp ∈ st.participants,
       (now - kp.2.updatedAt > REWARD_HEARTBEAT_STALE_MS →
          kp ∉ (pruneRewardParticipants now st).participants)
       ∧ (now - kp.2.updatedAt ≤ REWARD_HEARTBEAT_STALE_MS →
          kp ∈ (pruneRewardParticipants now st).participants))
    ∧ (∀ t, (getRewardNextTarget now st).1 = some t →
        now - t.updatedAt ≤ REWARD_HEARTBEAT_STALE_MS) := by
  constructor
  · intro kp hkp
    constructor
    · intro hstale hmem
      rw [prune_participants] at hmem
      rcases List.mem_filter.mp hmem with ⟨-, hpred⟩
      simp [REWARD_HEARTBEAT_STALE_MS] at hpred
      unfold REWARD_HEARTBEAT_STALE_MS at hstale
      omega
    · intro hfresh
      rw [prune_participants]
      exact List.mem_filter.mpr ⟨hkp, by simp [not_lt.mpr hfresh]⟩
  · intro t ht
    simp only [getRewardNextTarget] at ht
    split at ht
    · simp at ht
    · have hmem : t ∈ (pruneRewardParticipants now st).participants.map Prod.snd :=
        List.get?_mem ht
      rcases List.mem_map.mp hmem with ⟨kp, hkp, hsnd⟩
      rw [prune_participants] at hkp
      rcases List.mem_filter.mp hkp with ⟨-, hpred⟩
      simp [REWARD_HEARTBEAT_STALE_MS] at hpred
      rw [← hsnd]
      unfold REWARD_HEARTBEAT_STALE_MS
      omega

/-- Witness for C9 at a registry with one stale and one fresh
participant at time 100000. -/
theorem stale_eviction_witness :
    ((1, 0), RewardParticipant.mk 1 0 "stale" 0)
        ∈ ([((1, 0), RewardParticipant.mk 1 0 "stale" 0),
            ((2, 0), RewardParticipant.mk 2 0 "fresh" 90000)]
          : List ((Nat × Nat) × RewardParticipant))
    ∧ ((100000 : Int) - (RewardParticipant.mk 1 0 "stale" 0).updatedAt
        > REWARD_HEARTBEAT_STALE_MS →
       ((1, 0), RewardParticipant.mk 1 0 "stale" 0)
          ∉ (pruneRewardParticipants 100000
              ⟨[((1, 0), RewardParticipant.mk 1 0 "stale" 0),
                ((2, 0), RewardParticipant.mk 2 0 "fresh" 90000)],
                0, 0, false, true, true, []⟩).participants) :=
  ⟨by decide,
   ((stale_eviction 100000
      ⟨[((1, 0), RewardParticipant.mk 1 0 "stale" 0),
        ((2, 0), RewardParticipant.mk 2 0 "fresh" 90000)],
        0, 0, false, true, true, []⟩).1
      ((1, 0), RewardParticipant.mk 1 0 "stale" 0) (by decide)).1⟩

/-- Claim C2 (code bug): the source assigns `sendStarted = true` before
invoking `chrome.tabs.sendMessage`, so when the call throws
synchronously the `if (!sendStarted)` fallback never fires — the
in-flight flag stays set until the 12s response timeout performs the
settlement, contradicting the claimed synchronous release within the
tick.  The exactly-once half of the claim does hold: evaluated at a
concrete dispatching tick whose send throws, the settlement happens
exactly once, by the timeout path (not the synchronous in-tick path),
and the flag is clear only once the timeout has run. -/
theorem sync_failure_release_deferred_to_timeout :
    (runRewardSchedulerTick 0 .sendThrows
        ⟨[((1, 0), RewardParticipant.mk 1 0 "chan1" 0)], 0, 0, false, true, true, []⟩).settledBy
      = SettlePath.timeoutPath
    ∧ (runRewardSchedulerTick 0 .sendThrows
        ⟨[((1, 0), RewardParticipant.mk 1 0 "chan1" 0)], 0, 0, false, true, true, []⟩).settledBy
      ≠ SettlePath.syncInTick
    ∧ (runRewardSchedulerTick 0 .sendThrows
        ⟨[((1, 0), RewardParticipant.mk 1 0 "chan1" 0)], 0, 0, false, true, true, []⟩).settles = 1
    ∧ (runRewardSchedulerTick 0 .sendThrows
        ⟨[((1, 0), RewardParticipant.mk 1 0 "chan1" 0)], 0, 0, false, true, true, []⟩).state.rewardTickInFlight
      = false := by
  refine ⟨rfl, ?_, rfl, rfl⟩
  decide

/-- Claim C3: the scheduler never dispatches while `now` is strictly
before `cooldownUntil` (the tick is a no-op); a tick exactly at the
cooldown boundary does dispatch (given the other tick preconditions and
an available target); and the cooldown value and its persistence log
change only when the dispatch response reports both `ok` and `claimed`. -/
theorem cooldown_enforcement (now : Int) (outcome : DispatchOutcome)
    (st : RewardState) :
    (st.rewardCooldownUntil > now →
       runRewardSchedulerTick now outcome st = ⟨st, none, 0, .noSettle⟩)
    ∧ (st.rewardTickInFlight = false → st.rewardCooldownReady = true →
       st.rewardCooldownUntil = now →
       ∀ t, (getRewardNextTarget now st).1 = some t →
       (runRewardSchedulerTick now outcome st).dispatched = some t)
    ∧ ((runRewardSchedulerTick now outcome st).state.rewardCooldownUntil
          ≠ st.rewardCooldownUntil → claimedSuccess outcome = true)
    ∧ ((runRewardSchedulerTick now outcome st).state.persistLog
          ≠ st.persistLog → claimedSuccess outcome = true) := by
  refine ⟨?_, ?_, ?_, ?_⟩
  · intro h
    by_cases h1 : st.rewardTickInFlight = true
    · simp [runRewardSchedulerTick, h1]
    · by_cases h2 : st.rewardCooldownReady = true
      · simp [runRewardSchedulerTick, h1, h2, h]
      · simp [runRewardSchedulerTick, h1, h2]
  · intro h1 h2 h3 t ht
    have hlt : ¬ st.rewardCooldownUntil > now := by omega
    cases outcome <;> simp [runRewardSchedulerTick, h1, h2, hlt, ht]
  · by_cases h1 : st.rewardTickInFlight = true
    · simp [runRewardSchedulerTick, h1]
    · by_cases h2 : st.rewardCooldownReady = true
      · by_cases h3 : st.rewardCooldownUntil > now
        · simp [runRewardSchedulerTick, h1, h2, h3]
        · rcases hsel : (getRewardNextTarget now st).1 with _ | target
          · simp [runRewardSchedulerTick, h1, h2, h3, hsel]
          · cases outcome with
            | sendThrows =>
                simp [runRewardSchedulerTick, h1, h2, h3, hsel, settleTick]
            | noResponse =>
                simp [runRewardSchedulerTick, h1, h2, h3, hsel, settleTick]
            | responds ev =>
                cases ev with
                | lastError msg =>
                    simp [runRewardSchedulerTick, h1, h2, h3, hsel, settleTick,
                      processCallbackBody, claimedSuccess]
                    split <;> simp
                | success raw respNow =>
                    simp [runRewardSchedulerTick, h1, h2, h3, hsel, settleTick,
                      processCallbackBody, claimedSuccess]
                    split
                    · simp_all
                    · simp
            | lateResponds ev =>
                cases ev with
                | lastError msg =>
                    simp [runRewardSchedulerTick, h1, h2, h3, hsel, settleTick,
                      processCallbackBody, claimedSuccess]
                    split <;> simp
                | success raw respNow =>
                    simp [runRewardSchedulerTick, h1, h2, h3, hsel, settleTick,
                      processCallbackBody, claimedSuccess]
                    split
                    · simp_all
                    · simp
      · simp [runRewardSchedulerTick, h1, h2]
  · by_cases h1 : st.rewardTickInFlight = true
    · simp [runRewardSchedulerTick, h1]
    · by_cases h2 : st.rewardCooldownReady = true
      · by_cases h3 : st.rewardCooldownUntil > now
        · simp [runRewardSchedulerTick, h1, h2, h3]
        · rcases hsel : (getRewardNextTarget now st).1 with _ | target
          · simp [runRewardSchedulerTick, h1, h2, h3, hsel]
          · cases outcome with
            | sendThrows =>
                simp [runRewardSchedulerTick, h1, h2, h3, hsel, settleTick]
            | noResponse =>
                simp [runRewardSchedulerTick, h1, h2, h3, hsel, settleTick]
            | responds ev =>
                cases ev with
                | lastError msg =>
                    simp [runRewardSchedulerTick, h1, h2, h3, hsel, settleTick,
                      processCallbackBody, claimedSuccess]
                    split <;> simp
                | success raw respNow =>
                    simp [runRewardSchedulerTick, h1, h2, h3, hsel, settleTick,
                      processCallbackBody, claimedSuccess]
                    split
                    · simp_all
                    · simp
            | lateResponds ev =>
                cases ev with
                | lastError msg =>
                    simp [runRewardSchedulerTick, h1, h2, h3, hsel, settleTick,
                      processCallbackBody, claimedSuccess]
                    split <;> simp
                | success raw respNow =>
                    simp [runRewardSchedulerTick, h1, h2, h3, hsel, settleTick,
                      processCallbackBody, claimedSuccess]
                    split
                    · simp_all
                    · simp
      · simp [runRewardSchedulerTick, h1, h2]

/-- Witness for C3: a tick during cooldown (50 < 100) is a no-op, and a
tick exactly at the boundary dispatches the registered participant. -/
theorem cooldown_enforcement_witness :
    runRewardSchedulerTick 50 .noResponse
      ⟨[((1, 0), RewardParticipant.mk 1 0 "chan1" 0)], 0, 100, false, true, true, []⟩
      = ⟨⟨[((1, 0), RewardParticipant.mk 1 0 "chan1" 0)], 0, 100, false, true, true, []⟩,
         none, 0, .noSettle⟩
    ∧ (runRewardSchedulerTick 100 .noResponse
        ⟨[((1, 0), RewardParticipant.mk 1 0 "chan1" 0)], 0, 100, false, true, true, []⟩).dispatched
      = some (RewardParticipant.mk 1 0 "chan1" 0) :=
  ⟨(cooldown_enforcement 50 .noResponse
      ⟨[((1, 0), RewardParticipant.mk 1 0 "chan1" 0)], 0, 100, false, true, true, []⟩).1
      (by decide),
   ((cooldown_enforcement 100 .noResponse
      ⟨[((1, 0), RewardParticipant.mk 1 0 "chan1" 0)], 0, 100, false, true, true, []⟩).2.1
      rfl rfl rfl (RewardParticipant.mk 1 0 "chan1" 0) (by decide))⟩

/-- Claim C1 (code bug): when the response arrives after the timeout the
in-flight guard is indeed settled exactly once (`settles = 1`, by the
timeout path), but the late response is NOT ignored — the response
callback calls `settleTick()` yet discards its boolean result and
processes the response anyway: a late `{ok:true, claimed:true}` response
still sets `cooldownUntil` to `Date.now() + REWARD_COOLDOWN_MS` and
persists it, and a late "Receiving end does not exist" error still
evicts the participant.  Evaluated here at a concrete dispatching tick. -/
theorem late_response_still_processed :
    (runRewardSchedulerTick 0
        (.lateResponds (.success (some ⟨some true, some true⟩) 20000))
        ⟨[((1, 0), RewardParticipant.mk 1 0 "chan1" 0)], 0, 0, false, true, true, []⟩).settles = 1
    ∧ (runRewardSchedulerTick 0
        (.lateResponds (.success (some ⟨some true, some true⟩) 20000))
        ⟨[((1, 0), RewardParticipant.mk 1 0 "chan1" 0)], 0, 0, false, true, true, []⟩).state.rewardCooldownUntil = 3320000
    ∧ (runRewardSchedulerTick 0
        (.lateResponds (.success (some ⟨some true, some true⟩) 20000))
        ⟨[((1, 0), RewardParticipant.mk 1 0 "chan1" 0)], 0, 0, false, true, true, []⟩).state.persistLog = [3320000]
    ∧ (runRewardSchedulerTick 0
        (.lateResponds (.lastError "Receiving end does not exist."))
        ⟨[((1, 0), RewardParticipant.mk 1 0 "chan1" 0)], 0, 0, false, true, true, []⟩).state.participants = [] := by
  refine ⟨rfl, rfl, rfl, ?_⟩
  decide

/-! ### Round-robin support lemmas -/

theorem stopIdle_of_nonempty (st : RewardState) (h : st.participants ≠ []) :
    stopRewardSchedulerIfIdle st = st := by
  unfold stopRewardSchedulerIfIdle
  rw [if_pos (List.length_pos.mpr h)]

theorem prune_of_fresh (now : Int) (st : RewardState)
    (hfresh : ∀ kp ∈ st.participants, now - kp.2.updatedAt ≤ REWARD_HEARTBEAT_STALE_MS)
    (hne : st.participants ≠ []) :
    pruneRewardParticipants now st = st := by
  have hf : st.participants.filter
      (fun kv => not (decide (now - kv.2.updatedAt > REWARD_HEARTBEAT_STALE_MS)))
      = st.participants := by
    rw [List.filter_eq_self]
    intro a ha
    simp [not_lt.mpr (hfresh a ha)]
  simp only [pruneRewardParticipants]
  rw [hf]
  exact stopIdle_of_nonempty st hne

theorem nextTarget_fresh_step (now : Int) (st : RewardState)
    (hfresh : ∀ kp ∈ st.participants, now - kp.2.updatedAt ≤ REWARD_HEARTBEAT_STALE_MS)
    (hc : st.rewardRoundRobinCursor < (st.participants.map Prod.snd).length) :
    getRewardNextTarget now st =
      ((st.participants.map Prod.snd).get? st.rewardRoundRobinCursor,
       { st with rewardRoundRobinCursor :=
           (st.rewardRoundRobinCursor + 1) % (st.participants.map Prod.snd).length }) := by
  have hne : st.participants ≠ [] := by
    intro h
    rw [h] at hc
    simp at hc
  simp only [getRewardNextTarget]
  rw [prune_of_fresh now st hfresh hne]
  rw [if_neg (by omega)]
  rw [if_neg (not_le.mpr hc)]

theorem nextTarget_reset (now : Int) (st : RewardState)
    (hfresh : ∀ kp ∈ st.participants, now - kp.2.updatedAt ≤ REWARD_HEARTBEAT_STALE_MS)
    (hne : st.participants ≠ [])
    (hge : st.rewardRoundRobinCursor ≥ (st.participants.map Prod.snd).length) :
    getRewardNextTarget now st =
      getRewardNextTarget now { st with rewardRoundRobinCursor := 0 } := by
  have hlen : (st.participants.map Prod.snd).length ≠ 0 := by
    simp [hne]
  simp only [getRewardNextTarget]
  rw [prune_of_fresh now st hfresh hne]
  rw [prune_of_fresh now { st with rewardRoundRobinCursor := 0 } hfresh hne]
  dsimp only
  rw [if_neg hlen, if_neg hlen]
  rw [if_pos hge]
  rw [if_neg (by omega)]

theorem selectN_normalize (k : Nat) (now : Int) (st : RewardState)
    (hfresh : ∀ kp ∈ st.participants, now - kp.2.updatedAt ≤ REWARD_HEARTBEAT_STALE_MS)
    (hne : st.participants ≠ [])
    (hge : st.rewardRoundRobinCursor ≥ (st.participants.map Prod.snd).length) :
    (selectN k now st).1 = (selectN k now { st with rewardRoundRobinCursor := 0 }).1 := by
  cases k with
  | zero => rfl
  | succ k =>
      simp only [selectN]
      rw [nextTarget_reset now st hfresh hne hge]

theorem selectN_fresh (k : Nat) (now : Int) (st : RewardState)
    (hfresh : ∀ kp ∈ st.participants, now - kp.2.updatedAt ≤ REWARD_HEARTBEAT_STALE_MS)
    (hc : st.rewardRoundRobinCursor < (st.participants.map Prod.snd).length) :
    (selectN k now st).1 =
      (List.range k).map (fun i =>
        (st.participants.map Prod.snd).get?
          ((st.rewardRoundRobinCursor + i) % (st.participants.map Prod.snd).length)) := by
  induction k generalizing st with
  | zero => simp [selectN]
  | succ k ih =>
      have hlenpos : 0 < (st.participants.map Prod.snd).length :=
        Nat.lt_of_le_of_lt (Nat.zero_le _) hc
      have hc2 : (st.rewardRoundRobinCursor + 1) % (st.participants.map Prod.snd).length
          < (st.participants.map Prod.snd).length := Nat.mod_lt _ hlenpos
      have ihst := ih { st with rewardRoundRobinCursor :=
          (st.rewardRoundRobinCursor + 1) % (st.participants.map Prod.snd).length }
        hfresh hc2
      simp only [selectN, nextTarget_fresh_step now st hfresh hc]
      rw [ihst]
      rw [List.range_succ_eq_map]
      simp only [List.map_cons, List.map_map]
      congr 1
      · rw [Nat.add_zero, Nat.mod_eq_of_lt hc]
      · apply List.map_congr_left
        intro i hi
        simp only [Function.comp]
        have hidx : st.rewardRoundRobinCursor + 1 + i
            = st.rewardRoundRobinCursor + Nat.succ i := by omega
        rw [Nat.mod_add_mod, hidx]

theorem range_map_get?_rotate (l : List RewardParticipant) (c : Nat) (_hc : c < l.length) :
    (List.range l.length).map (fun i => l.get? ((c + i) % l.length))
      = (l.map some).rotate c := by
  apply List.ext_getElem
  · simp
  · intro i h1 h2
    have hi : i < l.length := by simpa using h1
    have hmod : (c + i) % l.length < l.length := Nat.mod_lt _ (by omega)
    rw [List.getElem_map, List.getElem_range, List.getElem_rotate]
    rw [List.getElem_map]
    rw [List.get?_eq_getElem?, List.getElem?_eq_getElem hmod]
    congr 2
    rw [Nat.add_comm c i, List.length_map]

/-- Claim C4: over a registry of N participants that selection leaves
unchanged (all fresh, so the lazy prune removes nothing), N consecutive
selections return exactly the rotation of the participant list starting
at the (normalised) cursor — each participant exactly once, in stable
order; and a selection returns `none` exactly when the post-prune
participant list is empty. -/
theorem roundRobin_fairness (now : Int) (st : RewardState) :
    ((∀ kp ∈ st.participants, now - kp.2.updatedAt ≤ REWARD_HEARTBEAT_STALE_MS) →
      st.participants ≠ [] →
      (selectN (st.participants.map Prod.snd).length now st).1
        = ((st.participants.map Prod.snd).map some).rotate
            (if st.rewardRoundRobinCursor ≥ (st.participants.map Prod.snd).length then 0
             else st.rewardRoundRobinCursor)
      ∧ (((st.participants.map Prod.snd).map some).rotate
            (if st.rewardRoundRobinCursor ≥ (st.participants.map Prod.snd).length then 0
             else st.rewardRoundRobinCursor)).Perm
          ((st.participants.map Prod.snd).map some))
    ∧ ((getRewardNextTarget now st).1 = none
        ↔ (pruneRewardParticipants now st).participants = []) := by
  constructor
  · intro hfresh hne
    have hlenpos : 0 < (st.participants.map Prod.snd).length := by
      simpa using List.length_pos.mpr hne
    refine ⟨?_, List.rotate_perm _ _⟩
    by_cases hge : st.rewardRoundRobinCursor ≥ (st.participants.map Prod.snd).length
    · rw [if_pos hge]
      rw [selectN_normalize _ now st hfresh hne hge]
      rw [selectN_fresh _ now { st with rewardRoundRobinCursor := 0 } hfresh
        (by simpa using hlenpos)]
      dsimp only
      exact range_map_get?_rotate _ 0 hlenpos
    · rw [if_neg hge]
      rw [selectN_fresh _ now st hfresh (not_le.mp hge)]
      exact range_map_get?_rotate _ _ (not_le.mp hge)
  · simp only [getRewardNextTarget]
    split
    · next hlen =>
        have h0 : (pruneRewardParticipants now st).participants = [] := by
          rw [← List.length_eq_zero]
          simpa using hlen
        constructor
        · intro _
          exact h0
        · intro _
          rfl
    · next hlen =>
        have hlp : (pruneRewardParticipants now st).participants ≠ [] := by
          intro h
          rw [h] at hlen
          simp at hlen
        have hc : (if (pruneRewardParticipants now st).rewardRoundRobinCursor
                ≥ ((pruneRewardParticipants now st).participants.map Prod.snd).length
              then 0
              else (pruneRewardParticipants now st).rewardRoundRobinCursor)
            < ((pruneRewardParticipants now st).participants.map Prod.snd).length := by
          have hpos : 0 < ((pruneRewardParticipants now st).participants.map Prod.snd).length := by
            omega
          split <;> omega
        dsimp only
        rw [List.get?_eq_none]
        constructor
        · intro hle
          exact absurd hle (not_le.mpr hc)
        · intro h
          exact absurd h hlp

/-- Witness for C4: two fresh participants selected twice from cursor 0
come back in rotation order, each exactly once. -/
theorem roundRobin_fairness_witness :
    (selectN 2 0
        ⟨[((1, 0), RewardParticipant.mk 1 0 "chanA" 0),
          ((2, 0), RewardParticipant.mk 2 0 "chanB" 0)], 0, 0, false, true, true, []⟩).1
      = ([some (RewardParticipant.mk 1 0 "chanA" 0),
          some (RewardParticipant.mk 2 0 "chanB" 0)].rotate 0)
    ∧ ([some (RewardParticipant.mk 1 0 "chanA" 0),
        some (RewardParticipant.mk 2 0 "chanB" 0)].rotate 0).Perm
        [some (RewardParticipant.mk 1 0 "chanA" 0),
         some (RewardParticipant.mk 2 0 "chanB" 0)] :=
  (roundRobin_fairness 0
    ⟨[((1, 0), RewardParticipant.mk 1 0 "chanA" 0),
      ((2, 0), RewardParticipant.mk 2 0 "chanB" 0)], 0, 0, false, true, true, []⟩).1
    (by decide) (by decide)
